import Mathlib

/-!
# Chat-Frontend: Dashboard message view and Form submission

A shallow embedding of the state-changing code of
`src/modules/Dashboard/index.js` (the `getMessage` socket handler,
`fetchMessages`, `sendMessage`, `handleLogout`) and of
`src/modules/Form/index.js` (`handleSubmit`), followed by theorems about the
message view, the logout teardown and the storage of credentials.

JavaScript values are a small inductive type, React state is an explicit
record, an `await`ed request is split into the part that runs before the
suspension and the continuation that runs once the outcome is known, and a
thrown exception is the `error` case of `Except`.
-/

namespace ChatFrontend

/-! ## JavaScript values -/

/-- JavaScript values as far as the program handles them: the JSON values plus
`undefined`. Numbers are kept as integers; the program only tests a number
for truthiness. -/
inductive JVal where
  | undefined : JVal
  | null : JVal
  | bool (b : Bool) : JVal
  | num (n : Int) : JVal
  | str (s : String) : JVal
  | arr (items : List JVal) : JVal
  | obj (fields : List (String × JVal)) : JVal

instance : Inhabited JVal := ⟨JVal.undefined⟩

/-- Exceptions the modelled code can meet. -/
inductive JSError where
  | typeError : JSError
  | syntaxError : JSError
  | networkError : JSError
  deriving DecidableEq, Repr

/-- Value of an own property of an object literal given by its field list;
`undefined` when the key is absent. -/
def propOf (fields : List (String × JVal)) (key : String) : JVal :=
  match fields.lookup key with
  | some v => v
  | none => JVal.undefined

/-- Property read `v.key`. Reading a property of `undefined` or `null` throws a
TypeError; the keys the program reads (`user`, `message`, `token`, `id`,
`receiverId`) are not built-in properties of primitives or arrays, so there
the read gives `undefined`. -/
def JVal.get (v : JVal) (key : String) : Except JSError JVal :=
  match v with
  | JVal.undefined => Except.error JSError.typeError
  | JVal.null => Except.error JSError.typeError
  | JVal.obj fields => Except.ok (propOf fields key)
  | _ => Except.ok JVal.undefined

/-- Optional chaining `v?.key`: `undefined` when `v` is `undefined` or `null`. -/
def JVal.getOpt (v : JVal) (key : String) : JVal :=
  match v with
  | JVal.obj fields => propOf fields key
  | _ => JVal.undefined

/-- JavaScript truthiness. -/
def JVal.truthy (v : JVal) : Bool :=
  match v with
  | JVal.undefined => false
  | JVal.null => false
  | JVal.bool b => b
  | JVal.num n => n != 0
  | JVal.str s => s != ""
  | JVal.arr _ => true
  | JVal.obj _ => true

/-- The operator `a || b`. -/
def JVal.orElse (a b : JVal) : JVal :=
  if a.truthy then a else b

/-- Array spread `[...v]`: the elements of an array, the code points of a
string; any other value is not iterable and the spread throws a TypeError. -/
def spread (v : JVal) : Except JSError (List JVal) :=
  match v with
  | JVal.arr items => Except.ok items
  | JVal.str s => Except.ok (s.toList.map (fun c => JVal.str (String.singleton c)))
  | _ => Except.error JSError.typeError

/-! ## The `messages` state of Dashboard -/

/-- The `messages` state object of Dashboard. It only ever holds the keys
`messages`, `receiver` and `conversationId`; an absent key reads as
`undefined`, so the initial `{}` has all three `undefined`. -/
structure View where
  messages : JVal
  receiver : JVal
  conversationId : JVal

/-- Initial value `useState({})`. -/
def View.initial : View :=
  { messages := JVal.undefined, receiver := JVal.undefined, conversationId := JVal.undefined }

/-- The updater passed to `setMessages` by the `getMessage` handler
(Dashboard, lines 51-56):
`prev => ({...prev, messages: [...prev.messages, {user: data.user, message: data.message}]})`.
The spread of `prev.messages` is evaluated before `data.user` and
`data.message`. -/
def getMessageHandler (data : JVal) (prev : View) : Except JSError View := do
  let old ← spread prev.messages
  let u ← data.get "user"
  let m ← data.get "message"
  pure { prev with messages := JVal.arr (old ++ [JVal.obj [("user", u), ("message", m)]]) }

/-- The state written by `fetchMessages` once the response body `resData` is
known (Dashboard, line 100): `setMessages({ messages: resData, receiver, conversationId })`. -/
def fetchMessagesResolved (conversationId receiver resData : JVal) : View :=
  { messages := resData, receiver := receiver, conversationId := conversationId }

/-- Delivery of live events in receipt order: each runs the handler on the
state left by the previous one. -/
def deliver (v : View) (events : List JVal) : Except JSError View :=
  match events with
  | [] => Except.ok v
  | e :: rest =>
    match getMessageHandler e v with
    | Except.ok v2 => deliver v2 rest
    | Except.error err => Except.error err

/-! ## Collaborators: socket, storage, toast, request outcomes -/

/-- The socket.io client as the program uses it: whether it is connected and
the events emitted on it, oldest first. -/
structure Socket where
  connected : Bool
  emitted : List (String × JVal)

/-- Effect of `socket.emit(name, payload)`. -/
def Socket.emit (s : Socket) (name : String) (payload : JVal) : Socket :=
  { s with emitted := s.emitted ++ [(name, payload)] }

/-- Effect of `socket.disconnect()`. -/
def Socket.disconnect (s : Socket) : Socket :=
  { s with connected := false }

/-- Contents of `localStorage`: keys with their string values. -/
structure Storage where
  items : List (String × String)

/-- Result of `localStorage.getItem(key)`; `none` stands for `null`. -/
def Storage.getItem (st : Storage) (key : String) : Option String :=
  st.items.lookup key

/-- Effect of `localStorage.removeItem(key)`. -/
def Storage.removeItem (st : Storage) (key : String) : Storage :=
  { items := st.items.filter (fun kv => kv.1 != key) }

/-- Effect of `localStorage.setItem(key, value)`: an existing key keeps its
place and takes the new value, a new key is added at the end. -/
def Storage.setItem (st : Storage) (key value : String) : Storage :=
  if (st.items.lookup key).isSome then
    { items := st.items.map (fun kv => if kv.1 == key then (kv.1, value) else kv) }
  else
    { items := st.items ++ [(key, value)] }

/-- The `toast` state of both components; `shown` is its field `show`. -/
structure Toast where
  shown : Bool
  message : JVal
  type : String

/-- A response of `fetch`: the flag `res.ok` and the outcome of
`await res.json()`, which throws when the body is not JSON. -/
structure Response where
  ok : Bool
  json : Except JSError JVal

/-- Outcome of `await fetch(...)`: the request throws or gives a response. -/
abbrev FetchOutcome := Except JSError Response

/-! ## Dashboard -/

/-- A call of `fetchMessages` suspended at `await fetch(...)`, with the
arguments its continuation will use. -/
structure PendingFetch where
  conversationId : JVal
  receiver : JVal

/-- State of the Dashboard component together with the collaborators it acts
on: the React states `user`, `messages`, `message`, `socket` and `toast`,
`localStorage`, the calls of `fetchMessages` still awaiting their response
(oldest first), and the routes scheduled for navigation by `setTimeout`. -/
structure Dashboard where
  user : JVal
  messages : View
  message : String
  socket : Option Socket
  toast : Toast
  storage : Storage
  outstanding : List PendingFetch
  navigations : List String

/-- Effect of `showToast(message, type)`: `setToast({ show: true, message, type })`. -/
def showToast (message : JVal) (type : String) : Toast :=
  { shown := true, message := message, type := type }

/-- Function `fetchMessages` up to its first `await` (Dashboard, lines 92-98):
the request is issued and the call is suspended. No state is written. -/
def fetchMessages (d : Dashboard) (conversationId receiver : JVal) : Dashboard :=
  { d with outstanding := d.outstanding ++ [{ conversationId := conversationId, receiver := receiver }] }

/-- Continuation of the `i`-th suspended `fetchMessages` when its response
body is `resData` (Dashboard, lines 99-100): the view is replaced by
`{ messages: resData, receiver, conversationId }` with the arguments of that
call. Without such a call nothing happens. -/
def fetchMessagesResume (d : Dashboard) (i : Nat) (resData : JVal) : Dashboard :=
  match d.outstanding[i]? with
  | some p =>
    { d with messages := fetchMessagesResolved p.conversationId p.receiver resData,
             outstanding := d.outstanding.eraseIdx i }
  | none => d

/-- Payload of the `sendMessage` socket event (Dashboard, lines 105-110). -/
def sendPayload (d : Dashboard) : JVal :=
  JVal.obj [("senderId", d.user.getOpt "id"),
            ("receiverId", d.messages.receiver.getOpt "receiverId"),
            ("message", JVal.str d.message),
            ("conversationId", d.messages.conversationId)]

/-- Function `sendMessage` (Dashboard, lines 103-123) run to completion when
the POST has the given outcome: the draft is reset, the event is emitted on
the socket if there is one, and the response is awaited and not read. The
second component is the result of the returned promise. -/
def sendMessage (d : Dashboard) (outcome : FetchOutcome) : Dashboard × Except JSError Unit :=
  ({ d with message := "",
            socket := d.socket.map (fun s => s.emit "sendMessage" (sendPayload d)) },
   match outcome with
   | Except.ok _ => Except.ok ()
   | Except.error err => Except.error err)

/-- The `try` block of `handleLogout` (Dashboard, lines 135-163). Every
statement that can throw comes before the first effect of its branch. -/
def handleLogoutTry (d : Dashboard) (outcome : FetchOutcome) : Except JSError Dashboard := do
  let res ← outcome
  let data ← res.json
  if res.ok then
    pure { d with storage := (d.storage.removeItem "user:token").removeItem "user:detail",
                  socket := d.socket.map Socket.disconnect,
                  toast := showToast (JVal.str "Logged out successfully") "success",
                  navigations := d.navigations ++ ["/users/sign_in"] }
  else
    let msg ← data.get "message"
    pure { d with toast := showToast (msg.orElse (JVal.str "Logout failed")) "error" }

/-- Function `handleLogout` (Dashboard, lines 133-168) run to completion when
the logout request has the given outcome. -/
def handleLogout (d : Dashboard) (outcome : FetchOutcome) : Dashboard :=
  match handleLogoutTry d outcome with
  | Except.ok d2 => d2
  | Except.error _ =>
    { d with toast := showToast (JVal.str "Error during logout. Please try again.") "error" }

/-- What can happen to a mounted Dashboard. -/
inductive Event where
  | select (conversationId receiver : JVal) : Event
  | fetched (i : Nat) (resData : JVal) : Event
  | getMessage (data : JVal) : Event
  | typed (text : String) : Event
  | send (outcome : FetchOutcome) : Event

/-- One event: a click on a conversation or a person calls `fetchMessages`,
the `i`-th outstanding fetch resolves with a JSON body, a `getMessage` event
arrives on the socket, the input changes the draft, or the send button runs
`sendMessage`. -/
def step (d : Dashboard) (ev : Event) : Except JSError Dashboard :=
  match ev with
  | Event.select conversationId receiver => Except.ok (fetchMessages d conversationId receiver)
  | Event.fetched i resData => Except.ok (fetchMessagesResume d i resData)
  | Event.getMessage data =>
    match getMessageHandler data d.messages with
    | Except.ok v => Except.ok { d with messages := v }
    | Except.error err => Except.error err
  | Event.typed text => Except.ok { d with message := text }
  | Event.send outcome => Except.ok (sendMessage d outcome).1

/-- A sequence of events, stopping at the first exception. -/
def run (d : Dashboard) (events : List Event) : Except JSError Dashboard :=
  match events with
  | [] => Except.ok d
  | ev :: rest =>
    match step d ev with
    | Except.ok d2 => run d2 rest
    | Except.error err => Except.error err

/-- A Dashboard right after mounting for `user` with the given storage:
`messages` is `{}`, the draft is empty, the socket has been created, is
connected and has announced the user with `addUser`. -/
def Dashboard.mounted (user : JVal) (storage : Storage) : Dashboard :=
  { user := user, messages := View.initial, message := "",
    socket := some { connected := true, emitted := [("addUser", user.getOpt "id")] },
    toast := { shown := false, message := JVal.str "", type := "success" },
    storage := storage, outstanding := [], navigations := [] }

/-! ## Form -/

/-- The two library conversions `handleSubmit` relies on: the conversion of a
value to a string done by `localStorage.setItem`, and `JSON.stringify`. -/
structure Runtime where
  toDOMString : JVal → String
  stringify : JVal → JVal

/-- State of the Form component together with the collaborators it acts on. -/
structure Form where
  toast : Toast
  loading : Bool
  storage : Storage
  navigations : List String

/-- The `try` block of `handleSubmit` (Form, lines 65-93), entered after
`setLoading(true)`. Every statement that can throw comes before the first
effect of its branch. -/
def handleSubmitTry (rt : Runtime) (f : Form) (outcome : FetchOutcome) : Except JSError Form := do
  let res ← outcome
  let resData ← res.json
  if !res.ok then
    let msg ← resData.get "message"
    pure { f with toast := showToast (msg.orElse (JVal.str "Something went wrong. Please try again.")) "error" }
  else
    let token ← resData.get "token"
    if token.truthy then
      let user ← resData.get "user"
      pure { f with storage := (f.storage.setItem "user:token" (rt.toDOMString token)).setItem
                                  "user:detail" (rt.toDOMString (rt.stringify user)),
                    toast := showToast (JVal.str "Authentication successful!") "success",
                    navigations := f.navigations ++ ["/"] }
    else
      pure { f with toast := showToast (JVal.str "Unexpected response from server. Please try again.") "error" }

/-- Function `handleSubmit` (Form, lines 60-101) run to completion when the
login or register request has the given outcome. -/
def handleSubmit (rt : Runtime) (f : Form) (outcome : FetchOutcome) : Form :=
  match handleSubmitTry rt { f with loading := true } outcome with
  | Except.ok f2 => { f2 with loading := false }
  | Except.error _ =>
    { f with toast := showToast (JVal.str "Network error. Please check your connection and try again.") "error",
             loading := false }

/-! ## Terms of the statements -/

/-- The entry the specification expects for a live event with the given
fields: `{user: e.user, message: e.message}`. -/
def liveEntry (fields : List (String × JVal)) : JVal :=
  JVal.obj [("user", propOf fields "user"), ("message", propOf fields "message")]

/-- The view of a Dashboard after a sequence of events. -/
def viewAfter (d : Dashboard) (events : List Event) : Except JSError View :=
  match run d events with
  | Except.ok d2 => Except.ok d2.messages
  | Except.error err => Except.error err

/-- The logout request is accepted: it resolves, its body is JSON and `res.ok`
holds. -/
def logoutAccepted (outcome : FetchOutcome) : Bool :=
  match outcome with
  | Except.ok res =>
    match res.json with
    | Except.ok _ => res.ok
    | Except.error _ => false
  | Except.error _ => false

/-- The credentials of an accepted login or register request: the response is
ok and its JSON body carries a truthy `token`; the pair is that token and the
`user` of the body. -/
def acceptedCredentials (outcome : FetchOutcome) : Option (JVal × JVal) :=
  match outcome with
  | Except.ok res =>
    if res.ok then
      match res.json with
      | Except.ok (JVal.obj fields) =>
        if (propOf fields "token").truthy then some (propOf fields "token", propOf fields "user")
        else none
      | _ => none
    else none
  | Except.error _ => none

/-- A Dashboard whose socket exists and is connected, with the given events
emitted so far. -/
def withConnectedSocket (d : Dashboard) (emitted : List (String × JVal)) : Dashboard :=
  { d with socket := some { connected := true, emitted := emitted } }

/-- The text of the error toast of a logout that is not accepted: for a response
that is not ok, `data.message || 'Logout failed'` when the body `data` has
properties to read; the text of the `catch` block when the request throws, the
body is not JSON, or `data` is `null` or `undefined`. -/
def logoutFailureMessage (outcome : FetchOutcome) : JVal :=
  match outcome with
  | Except.ok res =>
    match res.json with
    | Except.ok (JVal.obj fields) => (propOf fields "message").orElse (JVal.str "Logout failed")
    | Except.ok JVal.undefined => JVal.str "Error during logout. Please try again."
    | Except.ok JVal.null => JVal.str "Error during logout. Please try again."
    | Except.ok _ => JVal.str "Logout failed"
    | Except.error _ => JVal.str "Error during logout. Please try again."
  | Except.error _ => JVal.str "Error during logout. Please try again."

/-! ## Concrete states and events -/

/-- A peer as the lists of Dashboard pass it to `fetchMessages`. -/
def samplePeer : JVal :=
  JVal.obj [("receiverId", JVal.num 2), ("fullName", JVal.str "Ada"), ("email", JVal.str "ada@example.org")]

/-- A second peer. -/
def otherPeer : JVal :=
  JVal.obj [("receiverId", JVal.num 3), ("fullName", JVal.str "Bo"), ("email", JVal.str "bo@example.org")]

/-- A ready view of conversation `c1` with an empty history. -/
def sampleView : View :=
  { messages := JVal.arr [], receiver := samplePeer, conversationId := JVal.str "c1" }

/-- A live event of conversation `c1` with body `a`. -/
def sampleEvent : JVal :=
  JVal.obj [("conversationId", JVal.str "c1"), ("user", JVal.obj [("id", JVal.num 2)]),
            ("message", JVal.str "a")]

/-- The entry `{user, message}` of `sampleEvent`. -/
def sampleEntry : JVal :=
  JVal.obj [("user", JVal.obj [("id", JVal.num 2)]), ("message", JVal.str "a")]

/-- A live event of conversation `c2`, which is not the one of `sampleView`. -/
def foreignEvent : JVal :=
  JVal.obj [("conversationId", JVal.str "c2"), ("user", JVal.obj [("id", JVal.num 3)]),
            ("message", JVal.str "b")]

/-- The entry `{user, message}` of `foreignEvent`. -/
def foreignEntry : JVal :=
  JVal.obj [("user", JVal.obj [("id", JVal.num 3)]), ("message", JVal.str "b")]

/-- A stored message of the given sender and text, as the history lists them. -/
def storedMessage (senderId : Int) (text : String) : JVal :=
  JVal.obj [("user", JVal.obj [("id", JVal.num senderId)]), ("message", JVal.str text)]

/-- A Dashboard mounted for the user with id 1, with stored credentials. -/
def sampleDashboard : Dashboard :=
  Dashboard.mounted (JVal.obj [("id", JVal.num 1), ("fullName", JVal.str "Cy")])
    { items := [("user:token", "t0k3n"), ("user:detail", "cy")] }

/-- The sample Dashboard showing the ready view of `c1`. -/
def readyDashboard : Dashboard :=
  { sampleDashboard with messages := sampleView }

/-- A durable-write response carrying the conversation id `c1`. -/
def writeReturnsC1 : FetchOutcome :=
  Except.ok { ok := true, json := Except.ok (JVal.obj [("conversationId", JVal.str "c1")]) }

/-- A logout response with status 401. -/
def logoutRejected : FetchOutcome :=
  Except.ok { ok := false, json := Except.ok (JVal.obj [("message", JVal.str "Invalid token")]) }

/-! ## Auxiliary facts -/

/-- On a view whose list is an array, the handler appends the entry of an
object event and changes nothing else. -/
theorem getMessageHandler_obj (fields : List (String × JVal)) (ms : List JVal) (r c : JVal) :
    getMessageHandler (JVal.obj fields) { messages := JVal.arr ms, receiver := r, conversationId := c }
      = Except.ok { messages := JVal.arr (ms ++ [liveEntry fields]), receiver := r, conversationId := c } :=
  rfl

/-- Delivering object events to a view whose list is an array appends their
entries in order. -/
theorem deliver_obj (es : List (List (String × JVal))) (ms : List JVal) (r c : JVal) :
    deliver { messages := JVal.arr ms, receiver := r, conversationId := c } (es.map JVal.obj)
      = Except.ok { messages := JVal.arr (ms ++ es.map liveEntry), receiver := r, conversationId := c } := by
  induction es generalizing ms with
  | nil => simp [deliver]
  | cons e rest ih =>
    simp only [List.map_cons, deliver, getMessageHandler_obj]
    rw [ih]
    simp

/-- Running two event sequences one after the other. -/
theorem run_append (d : Dashboard) (xs ys : List Event) :
    run d (xs ++ ys) =
      match run d xs with
      | Except.ok d2 => run d2 ys
      | Except.error err => Except.error err := by
  induction xs generalizing d with
  | nil => simp [run]
  | cons x rest ih =>
    simp only [List.cons_append, run]
    cases step d x with
    | ok d2 => simpa using ih d2
    | error err => rfl

/-- Live object events on a Dashboard whose list is an array append their
entries in order and touch nothing else. -/
theorem run_getMessage_obj (d : Dashboard) (es : List (List (String × JVal)))
    (ms : List JVal) (r c : JVal) :
    run { d with messages := { messages := JVal.arr ms, receiver := r, conversationId := c } }
        (es.map (fun e => Event.getMessage (JVal.obj e)))
      = Except.ok { d with messages :=
          { messages := JVal.arr (ms ++ es.map liveEntry), receiver := r, conversationId := c } } := by
  induction es generalizing ms with
  | nil => simp [run]
  | cons e rest ih =>
    simp only [List.map_cons, run, step, getMessageHandler_obj]
    rw [ih]
    simp

/-- The newest outstanding fetch resolving: the view becomes the one of that
selection and the older outstanding fetches stay. -/
theorem resume_newest (d : Dashboard) (c r resData : JVal) :
    fetchMessagesResume (fetchMessages d c r) d.outstanding.length resData
      = { d with messages := fetchMessagesResolved c r resData } := by
  simp [fetchMessagesResume, fetchMessages, List.eraseIdx_append_of_length_le]

theorem lookup_filter_self (l : List (String × String)) (k : String) :
    (l.filter (fun kv => kv.1 != k)).lookup k = none := by
  induction l with
  | nil => rfl
  | cons kv rest ih =>
    obtain ⟨a, b⟩ := kv
    by_cases h : a = k
    · simp [List.filter_cons, h, ih]
    · have hk : (k == a) = false := by simpa using Ne.symm h
      simp [List.filter_cons, h, List.lookup_cons, hk, ih]

theorem lookup_filter_ne (l : List (String × String)) (k k2 : String) (hne : k ≠ k2) :
    (l.filter (fun kv => kv.1 != k2)).lookup k = l.lookup k := by
  induction l with
  | nil => rfl
  | cons kv rest ih =>
    obtain ⟨a, b⟩ := kv
    by_cases h : a = k2
    · subst h
      have hk : (k == a) = false := by simpa using hne
      simp [List.filter_cons, List.lookup_cons, hk, ih]
    · by_cases hka : k = a
      · simp [List.filter_cons, h, List.lookup_cons, hka]
      · have hk : (k == a) = false := by simpa using hka
        simp [List.filter_cons, h, List.lookup_cons, hk, ih]

theorem lookup_map_set (l : List (String × String)) (k v : String) (h : (l.lookup k).isSome) :
    (l.map (fun kv => if kv.1 == k then (kv.1, v) else kv)).lookup k = some v := by
  induction l with
  | nil => simp at h
  | cons kv rest ih =>
    obtain ⟨a, b⟩ := kv
    by_cases hka : k = a
    · simp [List.lookup_cons, hka]
    · have hk : (k == a) = false := by simpa using hka
      have hak : ¬ a = k := fun e => hka e.symm
      simp only [List.lookup_cons, hk] at h
      have ih2 := ih h
      simp only [beq_iff_eq] at ih2
      simp [List.lookup_cons, hk, hak, ih2]

theorem lookup_map_set_ne (l : List (String × String)) (k k2 v : String) (hne : k ≠ k2) :
    (l.map (fun kv => if kv.1 == k2 then (kv.1, v) else kv)).lookup k = l.lookup k := by
  induction l with
  | nil => rfl
  | cons kv rest ih =>
    obtain ⟨a, b⟩ := kv
    simp only [beq_iff_eq] at ih
    by_cases h : a = k2
    · subst h
      have hk : (k == a) = false := by simpa using hne
      simp [List.lookup_cons, hk, ih]
    · by_cases hka : k = a
      · subst hka
        simp [List.lookup_cons, h]
      · have hk : (k == a) = false := by simpa using hka
        simp [List.lookup_cons, h, hk, ih]

theorem lookup_append_new (l : List (String × String)) (k v : String) (h : l.lookup k = none) :
    (l ++ [(k, v)]).lookup k = some v := by
  induction l with
  | nil => simp [List.lookup_cons]
  | cons kv rest ih =>
    obtain ⟨a, b⟩ := kv
    by_cases hka : k = a
    · simp [List.lookup_cons, hka] at h
    · have hk : (k == a) = false := by simpa using hka
      simp only [List.lookup_cons, hk] at h
      simp [List.lookup_cons, hk, ih h]

theorem lookup_append_ne (l : List (String × String)) (k k2 v : String) (hne : k ≠ k2) :
    (l ++ [(k2, v)]).lookup k = l.lookup k := by
  induction l with
  | nil =>
    have hk : (k == k2) = false := by simpa using hne
    simp [List.lookup_cons, hk]
  | cons kv rest ih =>
    obtain ⟨a, b⟩ := kv
    by_cases hka : k = a
    · simp [List.lookup_cons, hka]
    · have hk : (k == a) = false := by simpa using hka
      simp [List.lookup_cons, hk, ih]

/-- Reading a key right after writing it gives the written value. -/
theorem getItem_setItem_self (st : Storage) (k v : String) :
    (st.setItem k v).getItem k = some v := by
  unfold Storage.setItem Storage.getItem
  by_cases h : (st.items.lookup k).isSome
  · simp only [h, if_true]
    exact lookup_map_set st.items k v h
  · simp only [h]
    have hn : st.items.lookup k = none := Option.not_isSome_iff_eq_none.mp h
    simpa using lookup_append_new st.items k v hn

/-- Writing a key leaves the other keys as they were. -/
theorem getItem_setItem_ne (st : Storage) (k k2 v : String) (hne : k ≠ k2) :
    (st.setItem k2 v).getItem k = st.getItem k := by
  unfold Storage.setItem Storage.getItem
  by_cases h : (st.items.lookup k2).isSome
  · simp only [h, if_true]
    exact lookup_map_set_ne st.items k k2 v hne
  · simp only [h]
    simpa using lookup_append_ne st.items k k2 v hne

/-- A removed key is absent. -/
theorem getItem_removeItem_self (st : Storage) (k : String) :
    (st.removeItem k).getItem k = none :=
  lookup_filter_self st.items k

/-- Removing a key leaves the other keys as they were. -/
theorem getItem_removeItem_ne (st : Storage) (k k2 : String) (hne : k ≠ k2) :
    (st.removeItem k2).getItem k = st.getItem k :=
  lookup_filter_ne st.items k k2 hne

/-! ## The message view under live events -/

/-- C1: after `fetchMessages` for a conversation has resolved with the history
`H` (the call just made is the last of the outstanding ones), any `N` live
events leave the view with the list `H` followed by the entries
`{user, message}` of the events in receipt order, of length `|H| + N`;
receiver and conversationId are those of the selection. -/
theorem history_then_live_in_order (d : Dashboard) (c r : JVal) (H : List JVal)
    (es : List (List (String × JVal))) :
    run d ([Event.select c r, Event.fetched d.outstanding.length (JVal.arr H)]
            ++ es.map (fun e => Event.getMessage (JVal.obj e)))
      = Except.ok { d with messages :=
          { messages := JVal.arr (H ++ es.map liveEntry), receiver := r, conversationId := c } }
    ∧ (H ++ es.map liveEntry).length = H.length + es.length := by
  refine ⟨?_, by simp⟩
  rw [run_append]
  simp only [run, step, resume_newest, fetchMessagesResolved]
  exact run_getMessage_obj d es H r c

/-- C2, as stated, fails: on the ready view of `c1` with an empty list, the
event with body `a` delivered twice leaves two entries, which is not the view
left by delivering it once. -/
theorem redelivery_not_idempotent :
    deliver sampleView [sampleEvent, sampleEvent]
      = Except.ok { sampleView with messages := JVal.arr [sampleEntry, sampleEntry] }
    ∧ deliver sampleView [sampleEvent, sampleEvent] ≠ deliver sampleView [sampleEvent] := by
  constructor
  · rfl
  · intro h
    have h2 : deliver sampleView [sampleEvent, sampleEvent]
        = Except.ok { sampleView with messages := JVal.arr [sampleEntry, sampleEntry] } := rfl
    have h1 : deliver sampleView [sampleEvent]
        = Except.ok { sampleView with messages := JVal.arr [sampleEntry] } := rfl
    rw [h2, h1] at h
    simp at h

/-- C2, amended: on a ready view, a live event delivered twice in a row is
appended twice; the list grows by two equal entries and nothing else changes. -/
theorem redelivery_appends_twice (fields : List (String × JVal)) (ms : List JVal) (r c : JVal) :
    deliver { messages := JVal.arr ms, receiver := r, conversationId := c }
        [JVal.obj fields, JVal.obj fields]
      = Except.ok { messages := JVal.arr (ms ++ [liveEntry fields, liveEntry fields]),
                    receiver := r, conversationId := c }
    ∧ (ms ++ [liveEntry fields, liveEntry fields]).length = ms.length + 2 := by
  refine ⟨?_, by simp⟩
  have h := deliver_obj [fields, fields] ms r c
  simpa using h

/-- C3, as stated, fails: on the ready view of `c1`, the handler appends the
entry of an event of conversation `c2`; the view is not left unchanged. -/
theorem foreign_event_is_appended :
    getMessageHandler foreignEvent sampleView
      = Except.ok { sampleView with messages := JVal.arr [foreignEntry] }
    ∧ getMessageHandler foreignEvent sampleView ≠ Except.ok sampleView := by
  constructor
  · rfl
  · intro h
    have h1 : getMessageHandler foreignEvent sampleView
        = Except.ok { sampleView with messages := JVal.arr [foreignEntry] } := rfl
    rw [h1] at h
    simp [sampleView] at h

/-- C3, amended: on a ready view with active conversationId `c`, a live event
whose conversationId differs from `c` does not make the handler throw, and its
entry is appended to the list like that of any other event. -/
theorem foreign_event_appended_without_throw (fields : List (String × JVal)) (ms : List JVal)
    (r c : JVal) (_hne : propOf fields "conversationId" ≠ c) :
    getMessageHandler (JVal.obj fields) { messages := JVal.arr ms, receiver := r, conversationId := c }
      = Except.ok { messages := JVal.arr (ms ++ [liveEntry fields]), receiver := r, conversationId := c } :=
  getMessageHandler_obj fields ms r c

/-- Witness of C3, amended, at an event of conversation `c2` on the view of `c1`. -/
theorem foreign_event_appended_without_throw_witness :
    propOf [("conversationId", JVal.str "c2"), ("message", JVal.str "b")] "conversationId"
        ≠ JVal.str "c1"
    ∧ getMessageHandler (JVal.obj [("conversationId", JVal.str "c2"), ("message", JVal.str "b")])
        { messages := JVal.arr [], receiver := samplePeer, conversationId := JVal.str "c1" }
      = Except.ok { messages := JVal.arr ([] ++ [liveEntry [("conversationId", JVal.str "c2"),
                        ("message", JVal.str "b")]]),
                    receiver := samplePeer, conversationId := JVal.str "c1" } :=
  have hne : propOf [("conversationId", JVal.str "c2"), ("message", JVal.str "b")] "conversationId"
      ≠ JVal.str "c1" := by
    intro h
    have h2 : propOf [("conversationId", JVal.str "c2"), ("message", JVal.str "b")] "conversationId"
        = JVal.str "c2" := rfl
    rw [h2] at h
    simp at h
  ⟨hne, foreign_event_appended_without_throw _ [] samplePeer (JVal.str "c1") hne⟩

/-- C9: on a freshly mounted Dashboard, where `messages` is `{}` and has no
list, every live event makes the handler throw a TypeError (the spread of
`undefined`), whatever the event carries. -/
theorem live_event_before_selection_throws (user : JVal) (storage : Storage) (data : JVal) :
    step (Dashboard.mounted user storage) (Event.getMessage data)
      = Except.error JSError.typeError :=
  rfl

/-! ## Selections and outstanding fetches -/

/-- C4, as stated, fails: conversation `cA` is selected, then `cB` while the
fetch of `cA` is outstanding; the fetch of `cB` resolves first and the one of
`cA` last. The view is then the one of `cA`, not the one seeded for `cB`. -/
theorem stale_fetch_overwrites_view :
    viewAfter sampleDashboard
        [Event.select (JVal.str "cA") samplePeer, Event.select (JVal.str "cB") otherPeer,
         Event.fetched 1 (JVal.arr [storedMessage 3 "from B"]),
         Event.fetched 0 (JVal.arr [storedMessage 2 "from A"])]
      = Except.ok (fetchMessagesResolved (JVal.str "cA") samplePeer (JVal.arr [storedMessage 2 "from A"]))
    ∧ viewAfter sampleDashboard
        [Event.select (JVal.str "cA") samplePeer, Event.select (JVal.str "cB") otherPeer,
         Event.fetched 1 (JVal.arr [storedMessage 3 "from B"]),
         Event.fetched 0 (JVal.arr [storedMessage 2 "from A"])]
      ≠ Except.ok (fetchMessagesResolved (JVal.str "cB") otherPeer (JVal.arr [storedMessage 3 "from B"])) := by
  have h : viewAfter sampleDashboard
        [Event.select (JVal.str "cA") samplePeer, Event.select (JVal.str "cB") otherPeer,
         Event.fetched 1 (JVal.arr [storedMessage 3 "from B"]),
         Event.fetched 0 (JVal.arr [storedMessage 2 "from A"])]
      = Except.ok (fetchMessagesResolved (JVal.str "cA") samplePeer (JVal.arr [storedMessage 2 "from A"])) :=
    rfl
  refine ⟨h, ?_⟩
  rw [h]
  simp [fetchMessagesResolved, storedMessage]

/-- C4, amended: when `A` is selected, then `B` while the fetch of `A` is
outstanding, and the fetch of `A` resolves after the one of `B`, the view is
the one of `A` (its conversationId, receiver and fetched messages): the fetch
that resolves last determines the view. -/
theorem last_resolved_fetch_wins (d : Dashboard) (cA rA cB rB resA resB : JVal) :
    run d [Event.select cA rA, Event.select cB rB,
           Event.fetched (d.outstanding.length + 1) resB,
           Event.fetched d.outstanding.length resA]
      = Except.ok { d with messages := fetchMessagesResolved cA rA resA } := by
  have h1 : fetchMessagesResume (fetchMessages (fetchMessages d cA rA) cB rB)
      (d.outstanding.length + 1) resB
      = { fetchMessages d cA rA with messages := fetchMessagesResolved cB rB resB } := by
    have h := resume_newest (fetchMessages d cA rA) cB rB resB
    simpa [fetchMessages] using h
  have h2 : fetchMessagesResume
      { fetchMessages d cA rA with messages := fetchMessagesResolved cB rB resB }
      d.outstanding.length resA
      = { d with messages := fetchMessagesResolved cA rA resA } := by
    simp [fetchMessagesResume, fetchMessages, List.eraseIdx_append_of_length_le]
  simp only [run, step, h1, h2]

/-- C5, as stated, fails: while the view of `c1` is shown, conversation `c2`
is selected, a live event of `c2` arrives before the fetch resolves, and the
fetch resolves with an empty history. The list is then empty; the event is
lost. -/
theorem live_event_during_fetch_is_lost :
    viewAfter readyDashboard
        [Event.select (JVal.str "c2") otherPeer, Event.getMessage foreignEvent,
         Event.fetched 0 (JVal.arr [])]
      = Except.ok { messages := JVal.arr [], receiver := otherPeer, conversationId := JVal.str "c2" }
    ∧ viewAfter readyDashboard
        [Event.select (JVal.str "c2") otherPeer, Event.getMessage foreignEvent,
         Event.fetched 0 (JVal.arr [])]
      ≠ Except.ok { messages := JVal.arr ([] ++ [foreignEntry]), receiver := otherPeer,
                    conversationId := JVal.str "c2" } := by
  have h : viewAfter readyDashboard
        [Event.select (JVal.str "c2") otherPeer, Event.getMessage foreignEvent,
         Event.fetched 0 (JVal.arr [])]
      = Except.ok { messages := JVal.arr [], receiver := otherPeer, conversationId := JVal.str "c2" } :=
    rfl
  refine ⟨h, ?_⟩
  rw [h]
  simp

/-- C5, amended: when a conversation is selected while the view has a message
list, the live events that arrive before the fetch resolves are appended to
the list shown until then, and when the fetch resolves with the history `H`
the view is replaced: its list is exactly `H`, without those events. -/
theorem live_events_during_fetch_replaced (d : Dashboard) (old : List JVal) (r0 c0 c r : JVal)
    (H : List JVal) (es : List (List (String × JVal))) :
    run { d with messages := { messages := JVal.arr old, receiver := r0, conversationId := c0 } }
        ([Event.select c r] ++ es.map (fun e => Event.getMessage (JVal.obj e)))
      = Except.ok (fetchMessages { d with messages :=
          { messages := JVal.arr (old ++ es.map liveEntry), receiver := r0, conversationId := c0 } } c r)
    ∧ run { d with messages := { messages := JVal.arr old, receiver := r0, conversationId := c0 } }
        ([Event.select c r] ++ es.map (fun e => Event.getMessage (JVal.obj e))
          ++ [Event.fetched d.outstanding.length (JVal.arr H)])
      = Except.ok { d with messages :=
          { messages := JVal.arr H, receiver := r, conversationId := c } } := by
  have h1 : run { d with messages := { messages := JVal.arr old, receiver := r0, conversationId := c0 } }
        ([Event.select c r] ++ es.map (fun e => Event.getMessage (JVal.obj e)))
      = Except.ok (fetchMessages { d with messages :=
          { messages := JVal.arr (old ++ es.map liveEntry), receiver := r0, conversationId := c0 } } c r) := by
    simp only [List.singleton_append, run, step]
    exact run_getMessage_obj (fetchMessages d c r) es old r0 c0
  refine ⟨h1, ?_⟩
  rw [run_append, h1]
  simp only [run, step]
  have h := resume_newest { d with messages :=
          { messages := JVal.arr (old ++ es.map liveEntry), receiver := r0, conversationId := c0 } } c r
          (JVal.arr H)
  simpa [fetchMessagesResolved] using h

/-! ## Sending -/

/-- C6, as stated, fails: the user with id 1 selects peer 2 as a new
conversation, the history is empty, `hi` is sent and the write returns
`c1`. The conversationId of the view is still `new`, not `c1`. -/
theorem sentinel_survives_first_send :
    viewAfter sampleDashboard
        [Event.select (JVal.str "new") samplePeer, Event.fetched 0 (JVal.arr []),
         Event.typed "hi", Event.send writeReturnsC1]
      = Except.ok { messages := JVal.arr [], receiver := samplePeer, conversationId := JVal.str "new" }
    ∧ viewAfter sampleDashboard
        [Event.select (JVal.str "new") samplePeer, Event.fetched 0 (JVal.arr []),
         Event.typed "hi", Event.send writeReturnsC1]
      ≠ Except.ok { messages := JVal.arr [], receiver := samplePeer, conversationId := JVal.str "c1" } := by
  have h : viewAfter sampleDashboard
        [Event.select (JVal.str "new") samplePeer, Event.fetched 0 (JVal.arr []),
         Event.typed "hi", Event.send writeReturnsC1]
      = Except.ok { messages := JVal.arr [], receiver := samplePeer, conversationId := JVal.str "new" } :=
    rfl
  refine ⟨h, ?_⟩
  rw [h]
  simp

/-- C6, amended: for a view opened on a new peer (conversationId `new`, empty
history), after `sendMessage` completes the conversationId of the view is
still `new`, whatever the durable write returns; the emitted event carries
the draft and the conversationId `new`. -/
theorem sentinel_kept_after_send (d : Dashboard) (r : JVal) (text : String) (outcome : FetchOutcome) :
    run d [Event.select (JVal.str "new") r, Event.fetched d.outstanding.length (JVal.arr []),
           Event.typed text, Event.send outcome]
      = Except.ok { d with
          messages := { messages := JVal.arr [], receiver := r, conversationId := JVal.str "new" },
          message := "",
          socket := d.socket.map (fun s => s.emit "sendMessage"
            (JVal.obj [("senderId", d.user.getOpt "id"), ("receiverId", r.getOpt "receiverId"),
                       ("message", JVal.str text), ("conversationId", JVal.str "new")])) } := by
  simp only [run, step, resume_newest, fetchMessagesResolved, sendMessage, sendPayload]

/-- C7: `sendMessage` does not echo the outgoing message. Whatever the view,
the draft and the outcome of the durable write, the `messages` state after it
(list, receiver, conversationId) is the one before it, the draft is the empty
string, and the states `user` and `toast` and the storage are untouched. -/
theorem sendMessage_no_local_echo (d : Dashboard) (outcome : FetchOutcome) :
    (sendMessage d outcome).1.messages = d.messages
    ∧ (sendMessage d outcome).1.messages.messages = d.messages.messages
    ∧ (sendMessage d outcome).1.messages.receiver = d.messages.receiver
    ∧ (sendMessage d outcome).1.message = ""
    ∧ (sendMessage d outcome).1.user = d.user
    ∧ (sendMessage d outcome).1.toast = d.toast
    ∧ (sendMessage d outcome).1.storage = d.storage :=
  ⟨rfl, rfl, rfl, rfl, rfl, rfl, rfl⟩

/-! ## Logout -/

/-- C8, as stated, fails: with the socket connected and both credentials
stored, a logout request answered with a response that is not ok leaves the
socket connected and both credentials in storage. -/
theorem rejected_logout_keeps_session :
    (handleLogout sampleDashboard logoutRejected).socket.map Socket.connected = some true
    ∧ (handleLogout sampleDashboard logoutRejected).storage.getItem "user:token" = some "t0k3n"
    ∧ (handleLogout sampleDashboard logoutRejected).storage.getItem "user:detail" = some "cy" := by
  refine ⟨rfl, ?_, ?_⟩ <;> decide

/-- C8, amended: with the socket connected, `handleLogout` performs the
teardown exactly when the logout request is accepted (it resolves with a JSON
body and `res.ok`): then the socket is disconnected, both stored credentials
are removed, the success toast is shown and the navigation to the sign-in
page is scheduled, and nothing else changes. For every other outcome only an
error toast is shown: the socket stays connected, storage, the view, the draft
and the scheduled navigations are unchanged. -/
theorem logout_teardown_when_accepted (d : Dashboard) (emitted : List (String × JVal))
    (outcome : FetchOutcome) :
    if logoutAccepted outcome then
      handleLogout (withConnectedSocket d emitted) outcome
          = { d with socket := some { connected := false, emitted := emitted },
                     storage := (d.storage.removeItem "user:token").removeItem "user:detail",
                     toast := { shown := true, message := JVal.str "Logged out successfully",
                                type := "success" },
                     navigations := d.navigations ++ ["/users/sign_in"] }
      ∧ (handleLogout (withConnectedSocket d emitted) outcome).socket
          = some { connected := false, emitted := emitted }
      ∧ (handleLogout (withConnectedSocket d emitted) outcome).storage.getItem "user:token" = none
      ∧ (handleLogout (withConnectedSocket d emitted) outcome).storage.getItem "user:detail" = none
    else
      handleLogout (withConnectedSocket d emitted) outcome
          = { d with socket := some { connected := true, emitted := emitted },
                     toast := { shown := true, message := logoutFailureMessage outcome,
                                type := "error" } }
      ∧ (handleLogout (withConnectedSocket d emitted) outcome).socket
          = some { connected := true, emitted := emitted }
      ∧ (handleLogout (withConnectedSocket d emitted) outcome).storage = d.storage
      ∧ (handleLogout (withConnectedSocket d emitted) outcome).toast.shown = true
      ∧ (handleLogout (withConnectedSocket d emitted) outcome).toast.type = "error"
      ∧ (handleLogout (withConnectedSocket d emitted) outcome).navigations = d.navigations
      ∧ (handleLogout (withConnectedSocket d emitted) outcome).messages = d.messages
      ∧ (handleLogout (withConnectedSocket d emitted) outcome).message = d.message := by
  have hne : ("user:token" : String) ≠ "user:detail" := by decide
  cases outcome with
  | error err =>
    simp [logoutAccepted, logoutFailureMessage, withConnectedSocket, handleLogout, handleLogoutTry,
      showToast, bind, Except.bind]
  | ok res =>
    obtain ⟨ok, json⟩ := res
    cases json with
    | error err =>
      simp [logoutAccepted, logoutFailureMessage, withConnectedSocket, handleLogout, handleLogoutTry,
        showToast, bind, Except.bind]
    | ok data =>
      cases ok with
      | true =>
        simp only [logoutAccepted, withConnectedSocket, handleLogout, handleLogoutTry, showToast, bind,
          Except.bind, pure, Except.pure, if_true, Option.map, Socket.disconnect]
        refine ⟨trivial, trivial, ?_, ?_⟩
        · rw [getItem_removeItem_ne _ _ _ hne, getItem_removeItem_self]
        · rw [getItem_removeItem_self]
      | false =>
        cases data <;>
          simp [logoutAccepted, logoutFailureMessage, withConnectedSocket, handleLogout,
            handleLogoutTry, showToast, JVal.get, JVal.orElse, JVal.truthy, bind, Except.bind, pure,
            Except.pure]

/-! ## Form submission -/

/-- C10: `handleSubmit` writes `user:token` and `user:detail` to storage when
the response is ok and its body carries a truthy token, and then both keys
read back the written values; for every other outcome (response not ok, token
missing or falsy, body not JSON, request thrown) storage is left unchanged. -/
theorem handleSubmit_stores_iff_token (rt : Runtime) (f : Form) (outcome : FetchOutcome) :
    match acceptedCredentials outcome with
    | some (token, user) =>
      (handleSubmit rt f outcome).storage
          = (f.storage.setItem "user:token" (rt.toDOMString token)).setItem
              "user:detail" (rt.toDOMString (rt.stringify user))
      ∧ (handleSubmit rt f outcome).storage.getItem "user:token" = some (rt.toDOMString token)
      ∧ (handleSubmit rt f outcome).storage.getItem "user:detail"
          = some (rt.toDOMString (rt.stringify user))
    | none => (handleSubmit rt f outcome).storage = f.storage := by
  have hne : ("user:token" : String) ≠ "user:detail" := by decide
  cases outcome with
  | error err => simp [acceptedCredentials, handleSubmit, handleSubmitTry, bind, Except.bind]
  | ok res =>
    obtain ⟨ok, json⟩ := res
    cases json with
    | error err =>
      cases ok <;> simp [acceptedCredentials, handleSubmit, handleSubmitTry, bind, Except.bind]
    | ok data =>
      cases ok with
      | false =>
        cases h : data.get "message" with
        | error err => simp [acceptedCredentials, handleSubmit, handleSubmitTry, bind, Except.bind, h]
        | ok msg =>
          simp [acceptedCredentials, handleSubmit, handleSubmitTry, bind, Except.bind, h, pure, Except.pure]
      | true =>
        cases data with
        | obj fields =>
          by_cases ht : (propOf fields "token").truthy = true
          · have hs : (handleSubmit rt f (Except.ok { ok := true, json := Except.ok (JVal.obj fields) })).storage
                = (f.storage.setItem "user:token" (rt.toDOMString (propOf fields "token"))).setItem
                    "user:detail" (rt.toDOMString (rt.stringify (propOf fields "user"))) := by
              simp [handleSubmit, handleSubmitTry, bind, Except.bind, pure, Except.pure, JVal.get, ht]
            simp only [acceptedCredentials, ht, if_true]
            rw [hs]
            refine ⟨rfl, ?_, ?_⟩
            · rw [getItem_setItem_ne _ _ _ _ hne, getItem_setItem_self]
            · rw [getItem_setItem_self]
          · simp [acceptedCredentials, handleSubmit, handleSubmitTry, bind, Except.bind, pure,
              Except.pure, JVal.get, ht]
        | undefined =>
          simp [acceptedCredentials, handleSubmit, handleSubmitTry, bind, Except.bind, JVal.get]
        | null =>
          simp [acceptedCredentials, handleSubmit, handleSubmitTry, bind, Except.bind, JVal.get]
        | bool b =>
          simp [acceptedCredentials, handleSubmit, handleSubmitTry, bind, Except.bind, JVal.get,
            JVal.truthy, pure, Except.pure]
        | num n =>
          simp [acceptedCredentials, handleSubmit, handleSubmitTry, bind, Except.bind, JVal.get,
            JVal.truthy, pure, Except.pure]
        | str t =>
          simp [acceptedCredentials, handleSubmit, handleSubmitTry, bind, Except.bind, JVal.get,
            JVal.truthy, pure, Except.pure]
        | arr items =>
          simp [acceptedCredentials, handleSubmit, handleSubmitTry, bind, Except.bind, JVal.get,
            JVal.truthy, pure, Except.pure]

end ChatFrontend
